import Mathlib

/-!
Verification development for the `gmail-as-api` server (`src/server.js`).

The server is a single-file Express application.  We shallowly embed the
request-level logic as pure Lean functions:

* JSON/JavaScript values are modelled by `JSVal` (`undefined`, `null`,
  strings, integer numbers, booleans, objects as association lists, arrays).
* JavaScript truthiness is `jsFalsy`; `String(v)` is `jsToString`.
* The OAuth-state map is an association list `StateMap` with the usual
  `Map.get/set/delete` operations (keys are unique in a JS `Map`; our
  `deleteState` removes every binding of the key, which agrees with
  `Map.delete` on maps with unique keys and is what every map built by the
  model satisfies).
* External effects (the Google token exchange, the MIME compiler, the Gmail
  send call, the token file on disk) are passed in as explicit parameters,
  so each handler is a pure function from its inputs to an `HttpResp`
  (plus the updated pieces of state it writes).
-/

set_option autoImplicit false

namespace GmailApi

/-- JavaScript/JSON values as they occur in request bodies and query strings. -/
inductive JSVal where
  | undef
  | null
  | str (s : String)
  | num (n : Int)
  | bool (b : Bool)
  | obj (fields : List (String × JSVal))
  | arr (elems : List JSVal)
  deriving Repr

/-- JavaScript truthiness test: `false`, `0`, `""`, `null`, `undefined` are
falsy; every object and array (even empty) is truthy. -/
def jsFalsy : JSVal → Bool
  | .undef => true
  | .null => true
  | .str s => s = ""
  | .num n => n = 0
  | .bool b => !b
  | .obj _ => false
  | .arr _ => false

/-- `typeof v` in JavaScript (restricted to JSON-representable values);
note `typeof null = "object"`. -/
def jsTypeof : JSVal → String
  | .undef => "undefined"
  | .null => "object"
  | .str _ => "string"
  | .num _ => "number"
  | .bool _ => "boolean"
  | .obj _ => "object"
  | .arr _ => "object"

/-- `Array.isArray v`. -/
def JSVal.isArr : JSVal → Bool
  | .arr _ => true
  | _ => false

/-- Property access `o.k` for the fixed named keys the server destructures;
absent keys (and access on non-objects) give `undefined`. -/
def getField (v : JSVal) (k : String) : JSVal :=
  match v with
  | .obj fields => (fields.lookup k).getD .undef
  | _ => .undef

mutual

/-- JavaScript `String(v)` on JSON-representable values: objects print as
`[object Object]`, arrays join their elements with commas. -/
def jsToString : JSVal → String
  | .undef => "undefined"
  | .null => "null"
  | .str s => s
  | .num n => toString n
  | .bool b => if b then "true" else "false"
  | .obj _ => "[object Object]"
  | .arr es => String.intercalate "," (jsArrElems es)

/-- Element strings for `Array.prototype.toString`: `null` and `undefined`
elements become the empty string. -/
def jsArrElems : List JSVal → List String
  | [] => []
  | .undef :: es => "" :: jsArrElems es
  | .null :: es => "" :: jsArrElems es
  | e :: es => jsToString e :: jsArrElems es

end

/-- Truthiness of an optional string (an express query parameter or an
`process.env` entry): absent or empty is falsy. -/
def optFalsy : Option String → Bool
  | none => true
  | some s => s = ""

/-! ## Configuration and startup (`server.js` lines 20–30, 75–91) -/

/-- The environment variables the server reads. -/
structure Env where
  apiKey : Option String
  fromEmail : Option String
  googleClientId : Option String
  googleClientSecret : Option String
  googleRedirectUri : Option String
  deriving Repr

/-- The two startup guards: `if (!API_KEY) process.exit(1)` and
`if (!FROM_EMAIL) process.exit(1)`.  `true` means the process aborts at
startup. -/
def startupAborts (env : Env) : Bool :=
  optFalsy env.apiKey || optFalsy env.fromEmail

/-- A constructed OAuth2 client configuration. -/
structure OAuthConfig where
  clientId : String
  clientSecret : String
  redirectUri : String
  deriving Repr, DecidableEq

/-- `createOAuthClient()`: throws `Missing Google OAuth env vars` when any of
the three Google variables is falsy, otherwise constructs the client.  This
function runs per call site (inside the request handlers), not at startup. -/
def createOAuthClient (env : Env) : Except String OAuthConfig :=
  if optFalsy env.googleClientId || optFalsy env.googleClientSecret
      || optFalsy env.googleRedirectUri then
    .error "Missing Google OAuth env vars"
  else
    .ok ⟨env.googleClientId.getD "", env.googleClientSecret.getD "",
      env.googleRedirectUri.getD ""⟩

/-- Modelled from the external `googleapis` library:
`oAuth2Client.generateAuthUrl({access_type:"offline", prompt:"consent",
scope, state})` builds the provider consent URL embedding the client
configuration and the state token. -/
def generateAuthUrl (cfg : OAuthConfig) (state : String) : String :=
  "https://accounts.google.com/o/oauth2/v2/auth?access_type=offline&prompt=consent"
    ++ "&scope=https://www.googleapis.com/auth/gmail.send"
    ++ "&client_id=" ++ cfg.clientId
    ++ "&redirect_uri=" ++ cfg.redirectUri
    ++ "&state=" ++ state

/-! ## Data-URL parsing (`parseDataUrl`, lines 107–112) -/

/-- Case-insensitive literal match: consume `pat` from the front of `cs`
comparing characters via `toLower`, returning the remainder.  Models the
literal parts of the regex `/^data:([^;]+);base64,(.+)$/i`. -/
def ciStrip : List Char → List Char → Option (List Char)
  | [], cs => some cs
  | _ :: _, [] => none
  | p :: ps, c :: cs => if c.toLower = p.toLower then ciStrip ps cs else none

/-- A character the JavaScript regex `.` (without the `s` flag) does not
match: the line terminators. -/
def isLineTerm (c : Char) : Bool :=
  c = '\n' || c = '\r' || c = Char.ofNat 0x2028 || c = Char.ofNat 0x2029

/-- The regex match `/^data:([^;]+);base64,(.+)$/i.exec(s)` on the character
list of `s`: a case-insensitive `data:` prefix, a non-empty mime type not
containing `;`, a case-insensitive `;base64,` separator, and a non-empty
payload containing no line terminators (the `.` class). -/
def parseDataUrlChars (cs : List Char) : Option (String × String) :=
  match ciStrip "data:".toList cs with
  | none => none
  | some rest =>
    if (rest.takeWhile (· ≠ ';')).isEmpty then none
    else
      match ciStrip ";base64,".toList (rest.dropWhile (· ≠ ';')) with
      | none => none
      | some payload =>
        if payload.isEmpty then none
        else if payload.any isLineTerm then none
        else some (String.mk (rest.takeWhile (· ≠ ';')), String.mk payload)

/-- `parseDataUrl(value)`: `null` unless `value` is a string matching the
data-URL regex; on success returns `(contentType, contentBase64)`. -/
def parseDataUrl (v : JSVal) : Option (String × String) :=
  match v with
  | .str s => parseDataUrlChars s.toList
  | _ => none

/-! ## Attachment normalization (`normalizeAttachments`, lines 114–171) -/

/-- A normalized attachment as built by the server: `filename` and `content`
are always present; the optional fields are included only when truthy. -/
structure NormAtt where
  filename : JSVal
  content : JSVal
  encoding : Option JSVal
  contentType : Option JSVal
  cid : Option JSVal
  contentDisposition : Option JSVal
  deriving Repr

/-- Include an optional output field only when the value is truthy
(`if (x) normalized.f = x`). -/
def keepTruthy (v : JSVal) : Option JSVal :=
  if jsFalsy v then none else some v

/-- The body of the `input.map((attachment, index) => ...)` callback in
`normalizeAttachments`. -/
def normalizeEntry (i : Nat) (e : JSVal) : Except String NormAtt :=
  if jsFalsy e || jsTypeof e ≠ "object" then
    .error ("attachments[" ++ toString i ++ "] must be an object")
  else
    let filename := getField e "filename"
    let content := getField e "content"
    let contentBase64 := getField e "contentBase64"
    let contentType := getField e "contentType"
    let encoding := getField e "encoding"
    let cid := getField e "cid"
    let contentDisposition := getField e "contentDisposition"
    if jsFalsy filename then
      .error ("attachments[" ++ toString i ++ "].filename is required")
    else
      let st0 : JSVal × JSVal × JSVal := (content, encoding, contentType)
      let st1 : JSVal × JSVal × JSVal :=
        match parseDataUrl content with
        | some (ct, payload) =>
          (.str payload, .str "base64",
            if jsFalsy contentType then .str ct else contentType)
        | none => st0
      let st2 : JSVal × JSVal × JSVal :=
        if jsFalsy st1.1 && !jsFalsy contentBase64 then
          (contentBase64,
            if jsFalsy st1.2.1 then .str "base64" else st1.2.1, st1.2.2)
        else st1
      if jsFalsy st2.1 then
        .error ("attachments[" ++ toString i ++ "].content or contentBase64 is required")
      else
        .ok { filename := filename
              content := st2.1
              encoding := keepTruthy st2.2.1
              contentType := keepTruthy st2.2.2
              cid := keepTruthy cid
              contentDisposition := keepTruthy contentDisposition }

/-- Index-carrying traversal of the attachment array. -/
def normEntries (i : Nat) : List JSVal → Except String (List NormAtt)
  | [] => .ok []
  | e :: es => do
    let a ← normalizeEntry i e
    let rest ← normEntries (i + 1) es
    .ok (a :: rest)

/-- `normalizeAttachments(input)`: `undefined` on falsy input, a
`ValidationError` on non-arrays, otherwise the per-entry normalization. -/
def normalizeAttachments (input : JSVal) : Except String (Option (List NormAtt)) :=
  if jsFalsy input then .ok none
  else
    match input with
    | .arr es => (normEntries 0 es).map some
    | _ => .error "attachments must be an array"

/-! ## Header normalization (`normalizeHeaders`, lines 173–186) -/

/-- One iteration of the `for (const [key, value] of Object.entries(headers))`
loop: entries whose value is `undefined` or `null` are skipped
(`continue`), every other value is stringified. -/
def headerEntry (p : String × JSVal) : Option (String × String) :=
  match p.2 with
  | .undef => none
  | .null => none
  | v => some (p.1, jsToString v)

/-- `normalizeHeaders(headers)`: `undefined` on falsy input; a
`ValidationError` when the input is not an object or is an array; otherwise
drop entries whose value is `null`/`undefined` and stringify the rest. -/
def normalizeHeaders (headers : JSVal) : Except String (Option (List (String × String))) :=
  if jsFalsy headers then .ok none
  else if jsTypeof headers ≠ "object" || headers.isArr then
    .error "headers must be an object"
  else
    match headers with
    | .obj fields => .ok (some (fields.filterMap headerEntry))
    | _ => .ok (some [])

/-! ## OAuth pending-state map (`oauthStates`, `cleanupStates`, lines 33, 188–195) -/

/-- `AUTH_STATE_TTL_MS = 10 * 60 * 1000`. -/
def AUTH_STATE_TTL_MS : Nat := 10 * 60 * 1000

/-- The `oauthStates` map: state token to `createdAt` timestamp
(milliseconds).  Keys are unique in a JavaScript `Map`. -/
abbrev StateMap : Type := List (String × Nat)

/-- `oauthStates.get(state)`. -/
def lookupState (s : String) (m : StateMap) : Option Nat :=
  List.lookup s m

/-- `oauthStates.delete(state)`: on a map with unique keys this is the
removal of the (unique) binding of `s`. -/
def deleteState (s : String) (m : StateMap) : StateMap :=
  m.filter fun p => p.1 ≠ s

/-- `oauthStates.set(state, {createdAt: now})`. -/
def insertState (s : String) (now : Nat) (m : StateMap) : StateMap :=
  deleteState s m ++ [(s, now)]

/-- `cleanupStates()`: delete every entry with `now - createdAt >
AUTH_STATE_TTL_MS`. -/
def cleanupStates (now : Nat) (m : StateMap) : StateMap :=
  m.filter fun p => ¬ now - p.2 > AUTH_STATE_TTL_MS

/-! ## HTTP responses -/

/-- The express responses the handlers produce: `res.status(s).json(body)`,
`res.status(s).send(text)`, and `res.redirect(url)`. -/
inductive HttpResp where
  | json (status : Nat) (body : JSVal)
  | send (status : Nat) (body : String)
  | redirect (url : String)
  deriving Repr

/-- The body `{"error": msg}`. -/
def errBody (msg : String) : JSVal :=
  .obj [("error", .str msg)]

/-! ## `GET /auth/start` (lines 208–227) -/

/-- The `/auth/start` handler.  Inputs: the environment, the request's query
parameters (the handler never reads them — the endpoint checks no secret),
the current pending-state map, the current time, and the freshly drawn
random state token (`crypto.randomBytes(16).toString("hex")`).  Returns the
updated map and the response.  Note the state is registered before the
OAuth client is constructed, so the map is updated even when
`createOAuthClient` throws. -/
def authStart (env : Env) (query : List (String × String)) (states : StateMap)
    (now : Nat) (freshState : String) : StateMap × HttpResp :=
  let _ := query
  let m1 := cleanupStates now states
  let m2 := insertState freshState now m1
  match createOAuthClient env with
  | .error e => (m2, .json 500 (errBody e))
  | .ok cfg => (m2, .redirect (generateAuthUrl cfg freshState))

/-! ## Token records and merging (lines 52–69, 248–258) -/

/-- The OAuth token material stored in `tokens.json` and delivered by the
provider.  `none` models an absent key (object spread only overwrites
present keys). -/
structure Tokens where
  access_token : Option String := none
  refresh_token : Option String := none
  scope : Option String := none
  token_type : Option String := none
  expiry_date : Option Int := none
  deriving Repr, DecidableEq

/-- The object spread `{ ...old, ...new }` on token records: a key present
in `new` overwrites, an absent key keeps the old value. -/
def mergeTokens (old new : Tokens) : Tokens :=
  { access_token := new.access_token <|> old.access_token
    refresh_token := new.refresh_token <|> old.refresh_token
    scope := new.scope <|> old.scope
    token_type := new.token_type <|> old.token_type
    expiry_date := new.expiry_date <|> old.expiry_date }

/-- The `oAuth2Client.on("tokens", ...)` listener (lines 60–69): ignore the
event unless it carries a non-empty access or refresh token, otherwise merge
it over the in-memory credentials and persist the merged record.  `none`
means nothing is written. -/
def tokensListener (credentials : Tokens) (newTokens : Tokens) : Option Tokens :=
  if optFalsy newTokens.access_token && optFalsy newTokens.refresh_token then none
  else some (mergeTokens credentials newTokens)

/-! ## `GET /auth/callback` (lines 229–267) -/

/-- The query parameters of the callback request. -/
structure CallbackQuery where
  error : Option String
  code : Option String
  state : Option String
  deriving Repr

/-- Outcome of the synchronous part of the callback handler, before the
first `await`. -/
inductive Phase1 where
  | halt (resp : HttpResp)
  | proceed (code : String) (state : String)
  deriving Repr

/-- The part of the `/auth/callback` handler that runs before the first
suspension point (the `await oAuth2Client.getToken(...)`): the provider
error check, the presence check for `code` and `state`, the pending-set
lookup, and the deletion of the state token.  Returns the outcome together
with the pending-state map as it stands when the handler first suspends. -/
def callbackPhase1 (q : CallbackQuery) (states : StateMap) : Phase1 × StateMap :=
  if ¬ optFalsy q.error then (.halt (.send 400 "Authorization failed."), states)
  else if optFalsy q.code || optFalsy q.state then
    (.halt (.send 400 "Missing code or state."), states)
  else
    let s := q.state.getD ""
    match lookupState s states with
    | none => (.halt (.send 400 "Invalid or expired state."), states)
    | some _ => (.proceed (q.code.getD "") s, deleteState s states)

/-- The part of the `/auth/callback` handler from the token exchange on:
exchange the code, merge the returned tokens over the stored record
(`{ ...existing, ...tokens }`), reject when the merged record still lacks a
refresh token, otherwise persist it.  `exchange` stands for the external
`oAuth2Client.getToken` call and `existing` for the current content of
`tokens.json` (`{}` when the file is missing).  The second component is the
record written to disk, if any. -/
def callbackExchange (env : Env) (code : String)
    (exchange : String → Except String Tokens) (existing : Option Tokens) :
    HttpResp × Option Tokens :=
  match createOAuthClient env with
  | .error e => (.send 500 e, none)
  | .ok _ =>
    match exchange code with
    | .error e => (.send 500 e, none)
    | .ok tokens =>
      let merged := mergeTokens (existing.getD {}) tokens
      if optFalsy merged.refresh_token then
        (.send 500 "No refresh token received. Revoke app and retry.", none)
      else
        (.send 200 "Authorization successful. You can now use /send.", some merged)

/-- The complete `/auth/callback` handler: the pre-suspension phase followed,
when it proceeds, by the token exchange.  Returns the response, the final
pending-state map, and the token record written to disk (if any). -/
def authCallback (env : Env) (q : CallbackQuery) (states : StateMap)
    (exchange : String → Except String Tokens) (existing : Option Tokens) :
    HttpResp × StateMap × Option Tokens :=
  match callbackPhase1 q states with
  | (.halt resp, m) => (resp, m, none)
  | (.proceed code _, m) =>
    let (resp, written) := callbackExchange env code exchange existing
    (resp, m, written)

/-! ## Transport encoding (`base64UrlEncode`, lines 93–99) -/

/-- The standard base64 alphabet. -/
def b64Alphabet : String :=
  "ABCDEFGHIJKLMNOPQRSTUVWXYZabcdefghijklmnopqrstuvwxyz0123456789+/"

/-- The base64 digit for a 6-bit value. -/
def b64Char (n : Nat) : Char :=
  b64Alphabet.toList.getD n 'A'

/-- `buffer.toString("base64")` over a byte list, three bytes at a time. -/
def toBase64 : List Nat → String
  | [] => ""
  | [a] =>
    String.mk [b64Char (a / 4 % 64), b64Char (a % 4 * 16), '=', '=']
  | [a, b] =>
    String.mk [b64Char (a / 4 % 64), b64Char (a % 4 * 16 + b / 16 % 16),
      b64Char (b % 16 * 4), '=']
  | a :: b :: c :: rest =>
    String.mk [b64Char (a / 4 % 64), b64Char (a % 4 * 16 + b / 16 % 16),
      b64Char (b % 16 * 4 + c / 64 % 4), b64Char (c % 64)] ++ toBase64 rest

/-- `base64UrlEncode(buffer)`: base64, then `+`→`-`, `/`→`_`, and trailing
`=` stripped. -/
def base64UrlEncode (buf : List Nat) : String :=
  let b := (((toBase64 buf).replace "+" "-").replace "/" "_").toList
  String.mk ((b.reverse.dropWhile (· = '=')).reverse)

/-! ## `POST /send` (lines 269–339) -/

/-- `formatAddress(address, name)`: `undefined` on a falsy address, the bare
address on a falsy name, otherwise the `{name, address}` pair. -/
inductive AddressVal where
  | missing
  | plain (address : JSVal)
  | named (name : JSVal) (address : JSVal)
  deriving Repr

/-- `formatAddress` (lines 101–105). -/
def formatAddress (address name : JSVal) : AddressVal :=
  if jsFalsy address then .missing
  else if jsFalsy name then .plain address
  else .named name address

/-- The inbound `/send` request: the `x-api-key` header and the destructured
body fields (`undefined` when absent). -/
structure SendReq where
  key : Option String := none
  /-- the body field `to` (`to` and `from` are reserved words here, hence
  the `Addr` suffix) -/
  toAddr : JSVal := .undef
  subject : JSVal := .undef
  text : JSVal := .undef
  html : JSVal := .undef
  cc : JSVal := .undef
  bcc : JSVal := .undef
  replyTo : JSVal := .undef
  replyToName : JSVal := .undef
  fromName : JSVal := .undef
  headers : JSVal := .undef
  inReplyTo : JSVal := .undef
  references : JSVal := .undef
  messageId : JSVal := .undef
  priority : JSVal := .undef
  attachments : JSVal := .undef
  deriving Repr

/-- The options record handed to `new MailComposer({...})`. -/
structure MailDesc where
  /-- the `to` option -/
  toAddr : JSVal
  cc : JSVal
  bcc : JSVal
  replyTo : AddressVal
  /-- the `from` option -/
  fromAddr : AddressVal
  subject : JSVal
  text : JSVal
  html : JSVal
  headers : Option (List (String × String))
  inReplyTo : JSVal
  references : JSVal
  messageId : JSVal
  priority : JSVal
  attachments : Option (List NormAtt)
  deriving Repr

/-- The `MailComposer` input built by the handler after validation. -/
def buildMailInput (env : Env) (req : SendReq)
    (nh : Option (List (String × String))) (na : Option (List NormAtt)) : MailDesc :=
  { toAddr := req.toAddr
    cc := req.cc
    bcc := req.bcc
    replyTo := formatAddress req.replyTo req.replyToName
    fromAddr := formatAddress (match env.fromEmail with
      | none => .undef
      | some s => .str s) req.fromName
    subject := req.subject
    text := req.text
    html := req.html
    headers := nh
    inReplyTo := req.inReplyTo
    references := req.references
    messageId := req.messageId
    priority := req.priority
    attachments := na }

/-- The resolved token file path (`path.join(path.resolve("data"),
"tokens.json")`, relative to the working directory). -/
def TOKENS_PATH : String := "data/tokens.json"

/-- `loadOAuthClient()` without the process-wide cache (the cache only skips
these checks on later requests): fail when `tokens.json` is missing, when
the stored record has no truthy `refresh_token`, or when
`createOAuthClient` throws; otherwise the client is ready.  `stored` is the
parsed content of `tokens.json` (`none` when the file does not exist). -/
def loadOAuthClientM (env : Env) (stored : Option Tokens) : Except String Unit :=
  match stored with
  | none =>
    .error ("tokens.json not found at " ++ TOKENS_PATH
      ++ ". Run: npm run auth or visit /auth/start.")
  | some tokens =>
    if optFalsy tokens.refresh_token then
      .error "tokens.json missing refresh_token. Re-run auth with prompt=consent."
    else
      (createOAuthClient env).map fun _ => ()

/-- A Gmail API send response (`resp?.data?.id`, `resp?.data?.threadId`). -/
structure GmailResp where
  id : JSVal
  threadId : JSVal
  deriving Repr

/-- The observable outcome of a `/send` request: the HTTP response and
whether `gmail.users.messages.send` was invoked. -/
structure SendOutcome where
  resp : HttpResp
  providerCalled : Bool
  deriving Repr

/-- `Array.isArray(normalizedAttachments) && normalizedAttachments.length > 0`. -/
def hasAttachmentsB (na : Option (List NormAtt)) : Bool :=
  match na with
  | some l => decide (l.length > 0)
  | none => false

/-- The top-level validation condition
`!to || !subject || (!text && !html && !hasAttachments)`. -/
def missingRequired (req : SendReq) (na : Option (List NormAtt)) : Bool :=
  jsFalsy req.toAddr || jsFalsy req.subject
    || (jsFalsy req.text && jsFalsy req.html && !hasAttachmentsB na)

/-- The `POST /send` handler.  External collaborators are explicit
parameters: `stored` is the parsed token file, `build` the MIME compiler
(`new MailComposer(...).compile().build(...)`, yielding the message bytes),
and `provider` the Gmail send call applied to the base64url-encoded
message.  The steps run in the source order: API-key check, header
normalization, attachment normalization, required-field validation, session
acquisition, composition, provider call. -/
def handleSend (env : Env) (req : SendReq) (stored : Option Tokens)
    (build : MailDesc → Except String (List Nat))
    (provider : String → Except String GmailResp) : SendOutcome :=
  if req.key ≠ env.apiKey then
    ⟨.json 401 (errBody "Unauthorized"), false⟩
  else
    match normalizeHeaders req.headers with
    | .error e => ⟨.json 400 (errBody e), false⟩
    | .ok nh =>
      match normalizeAttachments req.attachments with
      | .error e => ⟨.json 400 (errBody e), false⟩
      | .ok na =>
        if missingRequired req na then
          ⟨.json 400 (errBody "Require: to, subject, and text/html or attachments"), false⟩
        else
          match loadOAuthClientM env stored with
          | .error e => ⟨.json 500 (errBody e), false⟩
          | .ok _ =>
            match build (buildMailInput env req nh na) with
            | .error e => ⟨.json 500 (errBody e), false⟩
            | .ok mime =>
              match provider (base64UrlEncode mime) with
              | .error e => ⟨.json 500 (errBody e), true⟩
              | .ok r => ⟨.json 200 (.obj [("id", r.id), ("threadId", r.threadId)]), true⟩

/-! ## Helper lemmas about the pending-state map -/

theorem lookup_filter_ne_self (s : String) (m : StateMap) :
    List.lookup s (m.filter fun p => p.1 ≠ s) = none := by
  rw [List.lookup_eq_none_iff]
  intro p hp
  have h2 := (List.mem_filter.mp hp).2
  simp only [ne_eq, decide_eq_true_eq] at h2
  simp only [bne_iff_ne, ne_eq]
  exact fun h => h2 h.symm

theorem lookupState_deleteState_self (s : String) (m : StateMap) :
    lookupState s (deleteState s m) = none :=
  lookup_filter_ne_self s m

theorem lookup_append_single (s : String) (v : Nat) (m : StateMap)
    (h : List.lookup s m = none) : List.lookup s (m ++ [(s, v)]) = some v := by
  rw [List.lookup_eq_some_iff]
  rw [List.lookup_eq_none_iff] at h
  exact ⟨m, [], rfl, h⟩

theorem lookupState_insertState_self (s : String) (v : Nat) (m : StateMap) :
    lookupState s (insertState s v m) = some v :=
  lookup_append_single s v _ (lookup_filter_ne_self s m)

theorem lookupState_cleanup_expired (now created : Nat) (s : String) (m : StateMap)
    (hnd : (m.map Prod.fst).Nodup) (hl : lookupState s m = some created)
    (hexp : now - created > AUTH_STATE_TTL_MS) :
    lookupState s (cleanupStates now m) = none := by
  unfold lookupState at hl ⊢
  unfold cleanupStates
  rw [List.lookup_eq_none_iff]
  intro p hp
  have hpm := List.mem_filter.mp hp
  simp only [bne_iff_ne, ne_eq]
  intro hs
  obtain ⟨l₁, l₂, hdecomp, hl₁⟩ := List.lookup_eq_some_iff.mp hl
  subst hdecomp
  have hnd' := hnd
  simp only [List.map_append, List.map_cons] at hnd'
  have hkey1 : s ∉ l₁.map Prod.fst := by
    intro hmem
    obtain ⟨q, hq, hq1⟩ := List.mem_map.mp hmem
    have hb := hl₁ q hq
    simp only [bne_iff_ne, ne_eq] at hb
    exact hb hq1.symm
  have hkey2 : s ∉ l₂.map Prod.fst :=
    (List.nodup_cons.mp (List.Nodup.of_append_right hnd')).1
  rcases List.mem_append.mp hpm.1 with h1 | h2
  · exact hkey1 (hs ▸ List.mem_map_of_mem Prod.fst h1)
  · rcases List.mem_cons.mp h2 with h3 | h4
    · rw [h3] at hpm
      have hkept : ¬ now - created > AUTH_STATE_TTL_MS := by simpa using hpm.2
      exact hkept hexp
    · exact hkey2 (hs ▸ List.mem_map_of_mem Prod.fst h4)

/-! ## Claim theorems -/

/-- C1: a token-update event merged over the current credential state — in
the `tokens` listener and in the `/auth/callback` exchange alike — never
drops a previously stored `refresh_token` when the new payload omits one:
the spread `{ ...old, ...new }` keeps every key absent from `new`. -/
theorem c1_refresh_token_preserved (cred newTk : Tokens) (r : String)
    (hold : cred.refresh_token = some r) (hnew : newTk.refresh_token = none) :
    (mergeTokens cred newTk).refresh_token = some r
    ∧ (∀ m, tokensListener cred newTk = some m → m.refresh_token = some r)
    ∧ (∀ env code exch resp m, exch code = .ok newTk →
        callbackExchange env code exch (some cred) = (resp, some m) →
        m.refresh_token = some r) := by
  have hmerge : (mergeTokens cred newTk).refresh_token = some r := by
    simp [mergeTokens, hold, hnew]
  refine ⟨hmerge, ?_, ?_⟩
  · intro m hm
    unfold tokensListener at hm
    split at hm
    · exact absurd hm (by simp)
    · cases hm
      exact hmerge
  · intro env code exch resp m hex hcb
    unfold callbackExchange at hcb
    cases hcc : createOAuthClient env with
    | error e =>
      simp only [hcc] at hcb
      rw [Prod.mk.injEq] at hcb
      exact absurd hcb.2 (by simp)
    | ok cfg =>
      simp only [hcc, hex, Option.getD_some] at hcb
      by_cases hrf : optFalsy (mergeTokens cred newTk).refresh_token = true
      · rw [if_pos hrf] at hcb
        rw [Prod.mk.injEq] at hcb
        exact absurd hcb.2 (by simp)
      · rw [if_neg hrf] at hcb
        rw [Prod.mk.injEq] at hcb
        have hm := Option.some.inj hcb.2
        rw [← hm]
        exact hmerge

/-- C1 witness: a concrete access-token-only refresh over a record holding a
refresh token, at both merge sites. -/
theorem c1_refresh_token_preserved_witness :
    (Tokens.refresh_token { access_token := some "oldA", refresh_token := some "R" }
        = some "R")
    ∧ (Tokens.refresh_token { access_token := some "newA" } = none)
    ∧ ((mergeTokens { access_token := some "oldA", refresh_token := some "R" }
          { access_token := some "newA" }).refresh_token = some "R"
      ∧ (∀ m, tokensListener { access_token := some "oldA", refresh_token := some "R" }
            { access_token := some "newA" } = some m → m.refresh_token = some "R")
      ∧ (∀ env code exch resp m, exch code = .ok { access_token := some "newA" } →
          callbackExchange env code exch
              (some { access_token := some "oldA", refresh_token := some "R" })
            = (resp, some m) →
          m.refresh_token = some "R")) :=
  ⟨rfl, rfl,
    c1_refresh_token_preserved
      { access_token := some "oldA", refresh_token := some "R" }
      { access_token := some "newA" } "R" rfl rfl⟩

/-- C2 counterexample: the pending set holds state token `"s"` created at
time 0; at time 700000 ms (past the 10-minute TTL, as the first conjunct
records) a well-formed callback presenting `"s"` is not rejected — the
pre-suspension phase proceeds to the code exchange, because the callback
handler checks only membership and no sweep has run. -/
theorem c2_counterexample :
    AUTH_STATE_TTL_MS < 700000 - 0
    ∧ callbackPhase1 ⟨none, some "c", some "s"⟩ [("s", 0)]
        = (.proceed "c" "s", [])
    ∧ (∀ resp, Phase1.proceed "c" "s" ≠ Phase1.halt resp) :=
  ⟨by norm_num [AUTH_STATE_TTL_MS], rfl, fun resp h => nomatch h⟩

/-- C2 (amended): the `/auth/callback` handler rejects a state token with
400 `Invalid or expired state.` exactly when it is absent from the pending
set; a token older than the TTL is rejected only once a sweep
(`cleanupStates`, run by `/auth/start`) has removed it — the callback
performs no age check of its own. -/
theorem c2_expiry_requires_sweep (q : CallbackQuery) (states : StateMap)
    (s : String) (now created : Nat)
    (herr : optFalsy q.error = true) (hcode : optFalsy q.code = false)
    (hstate : q.state = some s) (hs : s ≠ "") :
    (lookupState s states = none →
      callbackPhase1 q states
        = (.halt (.send 400 "Invalid or expired state."), states))
    ∧ ((states.map Prod.fst).Nodup → lookupState s states = some created →
        AUTH_STATE_TTL_MS < now - created →
        callbackPhase1 q (cleanupStates now states)
          = (.halt (.send 400 "Invalid or expired state."), cleanupStates now states)) := by
  have hsf : optFalsy (some s) = false := by simp [optFalsy, hs]
  constructor
  · intro hnone
    simp [callbackPhase1, herr, hcode, hstate, hsf, hnone]
  · intro hnd hl hexp
    have hnone := lookupState_cleanup_expired now created s states hnd hl hexp
    simp [callbackPhase1, herr, hcode, hstate, hsf, hnone]

/-- C2 witness: state `"s"` created at 0 is still recorded; at time 700000
the sweep removes it and the callback then rejects it. -/
theorem c2_expiry_requires_sweep_witness :
    lookupState "s" [("s", 0)] = some 0
    ∧ AUTH_STATE_TTL_MS < 700000 - 0
    ∧ callbackPhase1 ⟨none, some "c", some "s"⟩ (cleanupStates 700000 [("s", 0)])
        = (.halt (.send 400 "Invalid or expired state."), cleanupStates 700000 [("s", 0)]) :=
  ⟨rfl, by norm_num [AUTH_STATE_TTL_MS],
    (c2_expiry_requires_sweep ⟨none, some "c", some "s"⟩ [("s", 0)] "s" 700000 0
        rfl rfl rfl (by simp)).2
      (by simp) rfl (by norm_num [AUTH_STATE_TTL_MS])⟩

/-- C3: a well-formed callback whose state token is pending deletes the
token in the pre-suspension phase (before the code-for-token exchange);
the final pending set equals the deleted one for every exchange outcome,
and a second callback presenting the same state token is rejected with
400 `Invalid or expired state.`. -/
theorem c3_state_single_use (env : Env) (q : CallbackQuery) (states : StateMap)
    (s : String) (created : Nat)
    (herr : optFalsy q.error = true) (hcode : optFalsy q.code = false)
    (hstate : q.state = some s) (hs : s ≠ "")
    (hmem : lookupState s states = some created) :
    callbackPhase1 q states = (.proceed (q.code.getD "") s, deleteState s states)
    ∧ (∀ exch existing,
        (authCallback env q states exch existing).2.1 = deleteState s states)
    ∧ (∀ exch existing,
        authCallback env q (deleteState s states) exch existing
          = (.send 400 "Invalid or expired state.", deleteState s states, none)) := by
  have hsf : optFalsy (some s) = false := by simp [optFalsy, hs]
  have hphase : callbackPhase1 q states
      = (.proceed (q.code.getD "") s, deleteState s states) := by
    simp [callbackPhase1, herr, hcode, hstate, hsf, hmem]
  refine ⟨hphase, ?_, ?_⟩
  · intro exch existing
    simp only [authCallback, hphase]
  · intro exch existing
    have hgone := lookupState_deleteState_self s states
    simp [authCallback, callbackPhase1, herr, hcode, hstate, hsf, hgone]

/-- C3 witness: consuming state `"s"` proceeds and removes it; presenting
it again is rejected. -/
theorem c3_state_single_use_witness :
    lookupState "s" [("s", 5)] = some 5
    ∧ callbackPhase1 ⟨none, some "c", some "s"⟩ [("s", 5)]
        = (.proceed "c" "s", deleteState "s" [("s", 5)])
    ∧ (∀ exch existing,
        (authCallback ⟨some "k", some "f", some "a", some "b", some "c"⟩
            ⟨none, some "c", some "s"⟩ [("s", 5)] exch existing).2.1
          = deleteState "s" [("s", 5)])
    ∧ (∀ exch existing,
        authCallback ⟨some "k", some "f", some "a", some "b", some "c"⟩
            ⟨none, some "c", some "s"⟩ (deleteState "s" [("s", 5)]) exch existing
          = (.send 400 "Invalid or expired state.", deleteState "s" [("s", 5)], none)) :=
  ⟨rfl,
    (c3_state_single_use ⟨some "k", some "f", some "a", some "b", some "c"⟩
        ⟨none, some "c", some "s"⟩ [("s", 5)] "s" 5 rfl rfl rfl (by simp) rfl).1,
    (c3_state_single_use ⟨some "k", some "f", some "a", some "b", some "c"⟩
        ⟨none, some "c", some "s"⟩ [("s", 5)] "s" 5 rfl rfl rfl (by simp) rfl).2.1,
    (c3_state_single_use ⟨some "k", some "f", some "a", some "b", some "c"⟩
        ⟨none, some "c", some "s"⟩ [("s", 5)] "s" 5 rfl rfl rfl (by simp) rfl).2.2⟩

/-- C4 counterexample: with the API key and sender address set but
`GOOGLE_CLIENT_ID` unset, a required piece of client configuration is
absent, yet the startup guards pass — the process does not abort at
startup.  The OAuth client configuration is only checked when a request
handler constructs the client, which then fails per-request (here shown on
`/auth/start`). -/
theorem c4_counterexample :
    optFalsy (Env.googleClientId
        ⟨some "k", some "me@example.com", none, some "sec", some "uri"⟩) = true
    ∧ startupAborts ⟨some "k", some "me@example.com", none, some "sec", some "uri"⟩
        = false
    ∧ createOAuthClient ⟨some "k", some "me@example.com", none, some "sec", some "uri"⟩
        = .error "Missing Google OAuth env vars"
    ∧ (authStart ⟨some "k", some "me@example.com", none, some "sec", some "uri"⟩
          [] [] 0 "st").2
        = .json 500 (errBody "Missing Google OAuth env vars") :=
  ⟨rfl, rfl, rfl, rfl⟩

/-- C4 (amended): missing API secret or sender address aborts the process
at startup; missing OAuth client configuration (client id, secret or
redirect URI) does not abort startup — instead every request that
constructs the OAuth client fails with `Missing Google OAuth env vars`. -/
theorem c4_startup_vs_per_request (env : Env) :
    (startupAborts env = false ↔
      optFalsy env.apiKey = false ∧ optFalsy env.fromEmail = false)
    ∧ ((optFalsy env.googleClientId || optFalsy env.googleClientSecret
          || optFalsy env.googleRedirectUri) = true →
        createOAuthClient env = .error "Missing Google OAuth env vars"
        ∧ ∀ query states now fresh,
            (authStart env query states now fresh).2
              = .json 500 (errBody "Missing Google OAuth env vars")) := by
  constructor
  · simp [startupAborts]
  · intro h
    have hc : createOAuthClient env = .error "Missing Google OAuth env vars" := by
      simp [createOAuthClient, h]
    exact ⟨hc, fun query states now fresh => by simp [authStart, hc]⟩

/-- C4 witness: an environment with only the Google variables missing. -/
theorem c4_startup_vs_per_request_witness :
    (optFalsy (Env.googleClientId ⟨some "k", some "f", none, none, none⟩)
        || optFalsy (Env.googleClientSecret ⟨some "k", some "f", none, none, none⟩)
        || optFalsy (Env.googleRedirectUri ⟨some "k", some "f", none, none, none⟩)) = true
    ∧ (createOAuthClient ⟨some "k", some "f", none, none, none⟩
          = .error "Missing Google OAuth env vars"
        ∧ ∀ query states now fresh,
            (authStart ⟨some "k", some "f", none, none, none⟩ query states now fresh).2
              = .json 500 (errBody "Missing Google OAuth env vars")) :=
  ⟨rfl, (c4_startup_vs_per_request ⟨some "k", some "f", none, none, none⟩).2 rfl⟩

/-- C5 counterexample: a request with the correct API key, an absent
recipient, and a numeric `headers` field.  The claim's antecedent holds
(the recipient is absent), but the handler returns the header-normalization
error, not the required-fields body, because normalization runs first. -/
theorem c5_counterexample :
    jsFalsy (SendReq.toAddr { key := some "k", headers := .num 5 }) = true
    ∧ handleSend ⟨some "k", some "me@example.com", some "id", some "sec", some "uri"⟩
        { key := some "k", headers := .num 5 } none (fun _ => .error "nobuild")
        (fun _ => .error "noprov")
        = ⟨.json 400 (errBody "headers must be an object"), false⟩
    ∧ "headers must be an object" ≠ "Require: to, subject, and text/html or attachments" :=
  ⟨rfl, rfl, by decide⟩

/-- C5 (amended): for every `/send` request with the correct API key whose
header and attachment normalization succeed, if the recipient is absent,
the subject is absent, or plain text, HTML and a non-empty normalized
attachment list are all absent, the handler returns 400 with exactly
`{"error":"Require: to, subject, and text/html or attachments"}` and no
further processing happens — the outcome is the same for every token file,
MIME builder and provider, and the provider is not called. -/
theorem c5_missing_required_fields (env : Env) (req : SendReq) (stored : Option Tokens)
    (build : MailDesc → Except String (List Nat))
    (provider : String → Except String GmailResp)
    (nh : Option (List (String × String))) (na : Option (List NormAtt))
    (hkey : req.key = env.apiKey)
    (hh : normalizeHeaders req.headers = .ok nh)
    (ha : normalizeAttachments req.attachments = .ok na)
    (hmiss : jsFalsy req.toAddr = true ∨ jsFalsy req.subject = true
      ∨ (jsFalsy req.text = true ∧ jsFalsy req.html = true
          ∧ hasAttachmentsB na = false)) :
    handleSend env req stored build provider
      = ⟨.json 400 (errBody "Require: to, subject, and text/html or attachments"),
          false⟩ := by
  have hmr : missingRequired req na = true := by
    unfold missingRequired
    rcases hmiss with h | h | ⟨h1, h2, h3⟩
    · simp [h]
    · simp [h]
    · simp [h1, h2, h3]
  unfold handleSend
  rw [hkey]
  simp [hh, ha, hmr]

/-- C5 witness: an empty-bodied request with the correct key. -/
theorem c5_missing_required_fields_witness :
    SendReq.key { key := some "k" }
        = Env.apiKey ⟨some "k", some "f", some "a", some "b", some "c"⟩
    ∧ normalizeHeaders (SendReq.headers { key := some "k" }) = .ok none
    ∧ normalizeAttachments (SendReq.attachments { key := some "k" }) = .ok none
    ∧ jsFalsy (SendReq.toAddr { key := some "k" }) = true
    ∧ handleSend ⟨some "k", some "f", some "a", some "b", some "c"⟩ { key := some "k" }
        none (fun _ => .error "nobuild") (fun _ => .error "noprov")
        = ⟨.json 400 (errBody "Require: to, subject, and text/html or attachments"),
            false⟩ :=
  ⟨rfl, rfl, rfl, rfl,
    c5_missing_required_fields ⟨some "k", some "f", some "a", some "b", some "c"⟩
      { key := some "k" } none (fun _ => .error "nobuild") (fun _ => .error "noprov")
      none none rfl rfl rfl (Or.inl rfl)⟩

/-- `headerEntry` produces an entry exactly for non-`null`/non-`undefined`
values, stringifying the value. -/
theorem headerEntry_eq_some (p : String × JSVal) (k sv : String) :
    headerEntry p = some (k, sv) ↔
      p.2 ≠ .null ∧ p.2 ≠ .undef ∧ k = p.1 ∧ sv = jsToString p.2 := by
  obtain ⟨a, w⟩ := p
  cases w <;> simp [headerEntry, jsToString, eq_comm]

/-- C9 counterexample: a nested (non-flat) header map is accepted, not
rejected — the value `{"b": 1}` under key `"a"` is itself an object (second
conjunct), and `normalizeHeaders` succeeds on it, stringifying the nested
object to `[object Object]`. -/
theorem c9_counterexample :
    normalizeHeaders (.obj [("a", .obj [("b", .num 1)])])
      = .ok (some [("a", "[object Object]")])
    ∧ jsTypeof (getField (.obj [("a", .obj [("b", .num 1)])]) "a") = "object" :=
  ⟨rfl, rfl⟩

/-- C9 (amended): `normalizeHeaders` on a present (truthy) input fails with
`headers must be an object` exactly when the input is not an object (or is
an array); flatness is not checked.  On objects it drops entries whose
value is `null`/`undefined` and stringifies every remaining value; falsy
inputs yield no header map.  The function is a pure Lean function (no side
effects). -/
theorem c9_normalize_headers_shape (v : JSVal) :
    (jsFalsy v = true → normalizeHeaders v = .ok none)
    ∧ (jsFalsy v = false → (∀ fields, v ≠ .obj fields) →
        normalizeHeaders v = .error "headers must be an object")
    ∧ (∀ fields, v = .obj fields →
        ∃ out, normalizeHeaders v = .ok (some out)
          ∧ ∀ k sv, ((k, sv) ∈ out ↔
              ∃ w, (k, w) ∈ fields ∧ w ≠ .null ∧ w ≠ .undef ∧ sv = jsToString w)) := by
  refine ⟨?_, ?_, ?_⟩
  · intro h
    simp [normalizeHeaders, h]
  · intro hf hobj
    cases v with
    | undef => simp [jsFalsy] at hf
    | null => simp [jsFalsy] at hf
    | obj fields => exact absurd rfl (hobj fields)
    | str s => simp [normalizeHeaders, hf, jsTypeof, JSVal.isArr]
    | num n => simp [normalizeHeaders, hf, jsTypeof, JSVal.isArr]
    | bool b => simp [normalizeHeaders, hf, jsTypeof, JSVal.isArr]
    | arr es => simp [normalizeHeaders, jsFalsy, jsTypeof, JSVal.isArr]
  · intro fields hv
    subst hv
    refine ⟨fields.filterMap headerEntry, rfl, ?_⟩
    intro k sv
    rw [List.mem_filterMap]
    constructor
    · rintro ⟨⟨a, w⟩, hmem, he⟩
      rw [headerEntry_eq_some] at he
      obtain ⟨h1, h2, h3, h4⟩ := he
      exact ⟨w, h3 ▸ hmem, h1, h2, h4⟩
    · rintro ⟨w, hmem, h1, h2, h3⟩
      exact ⟨(k, w), hmem, (headerEntry_eq_some (k, w) k sv).mpr ⟨h1, h2, rfl, h3⟩⟩

/-- C9 witness: a map with a `null`-valued, a numeric and a string entry:
the `null` entry is dropped, the others are stringified. -/
theorem c9_normalize_headers_shape_witness :
    (JSVal.obj [("x", .null), ("y", .num 2), ("z", .str "v")]
        = JSVal.obj [("x", .null), ("y", .num 2), ("z", .str "v")])
    ∧ ∃ out, normalizeHeaders (JSVal.obj [("x", .null), ("y", .num 2), ("z", .str "v")])
        = .ok (some out)
      ∧ ∀ k sv, ((k, sv) ∈ out ↔
          ∃ w, (k, w) ∈ [("x", JSVal.null), ("y", JSVal.num 2), ("z", JSVal.str "v")]
            ∧ w ≠ .null ∧ w ≠ .undef ∧ sv = jsToString w) :=
  ⟨rfl, (c9_normalize_headers_shape
      (JSVal.obj [("x", .null), ("y", .num 2), ("z", .str "v")])).2.2
    [("x", JSVal.null), ("y", JSVal.num 2), ("z", JSVal.str "v")] rfl⟩

/-- C10: `/auth/start` sweeps expired states, registers the fresh random
state token, and redirects to the provider consent URL; the handler reads
no query parameter and checks no shared secret, so its outcome is
identical for every query string. -/
theorem c10_auth_start_unauthenticated (env : Env) (cfg : OAuthConfig)
    (q1 q2 : List (String × String)) (states : StateMap) (now : Nat) (fresh : String)
    (hcfg : createOAuthClient env = .ok cfg) :
    authStart env q1 states now fresh
      = (insertState fresh now (cleanupStates now states),
          .redirect (generateAuthUrl cfg fresh))
    ∧ lookupState fresh (authStart env q1 states now fresh).1 = some now
    ∧ authStart env q1 states now fresh = authStart env q2 states now fresh := by
  have h1 : authStart env q1 states now fresh
      = (insertState fresh now (cleanupStates now states),
          .redirect (generateAuthUrl cfg fresh)) := by
    simp [authStart, hcfg]
  refine ⟨h1, ?_, rfl⟩
  rw [h1]
  exact lookupState_insertState_self fresh now _

/-- C10 witness: a fully configured environment; the outcome ignores the
`?key=guess` query parameter. -/
theorem c10_auth_start_unauthenticated_witness :
    createOAuthClient ⟨some "k", some "f", some "a", some "b", some "c"⟩
        = .ok ⟨"a", "b", "c"⟩
    ∧ (authStart ⟨some "k", some "f", some "a", some "b", some "c"⟩
          [("key", "guess")] [("old", 0)] 700000 "fresh"
        = (insertState "fresh" 700000 (cleanupStates 700000 [("old", 0)]),
            .redirect (generateAuthUrl ⟨"a", "b", "c"⟩ "fresh"))
      ∧ lookupState "fresh"
          (authStart ⟨some "k", some "f", some "a", some "b", some "c"⟩
            [("key", "guess")] [("old", 0)] 700000 "fresh").1 = some 700000
      ∧ authStart ⟨some "k", some "f", some "a", some "b", some "c"⟩
          [("key", "guess")] [("old", 0)] 700000 "fresh"
        = authStart ⟨some "k", some "f", some "a", some "b", some "c"⟩
          [] [("old", 0)] 700000 "fresh") :=
  ⟨rfl, c10_auth_start_unauthenticated ⟨some "k", some "f", some "a", some "b", some "c"⟩
    ⟨"a", "b", "c"⟩ [("key", "guess")] [] [("old", 0)] 700000 "fresh" rfl⟩

theorem stringMk_ne_empty {l : List Char} (h : l ≠ []) : String.mk l ≠ "" := by
  intro hh
  apply h
  simpa using congrArg String.data hh

/-- A successful data-URL parse yields a non-empty mime type and a
non-empty payload (the regex groups `[^;]+` and `.+`). -/
theorem parseDataUrlChars_ne_empty {cs : List Char} {mt pl : String}
    (h : parseDataUrlChars cs = some (mt, pl)) : mt ≠ "" ∧ pl ≠ "" := by
  unfold parseDataUrlChars at h
  split at h
  · exact absurd h (by simp)
  · split at h
    · exact absurd h (by simp)
    · rename_i rest heq hmime
      split at h
      · exact absurd h (by simp)
      · rename_i payload heq2
        split at h
        · exact absurd h (by simp)
        · split at h
          · exact absurd h (by simp)
          · rename_i hpe hlt
            rw [Option.some.injEq, Prod.mk.injEq] at h
            obtain ⟨h1, h2⟩ := h
            constructor
            · rw [← h1]
              exact stringMk_ne_empty (by simpa using hmime)
            · rw [← h2]
              exact stringMk_ne_empty (by simpa using hpe)

theorem parseDataUrl_ne_empty {c : JSVal} {mt pl : String}
    (h : parseDataUrl c = some (mt, pl)) : mt ≠ "" ∧ pl ≠ "" := by
  cases c with
  | str s => exact parseDataUrlChars_ne_empty h
  | undef => exact absurd h (by simp [parseDataUrl])
  | null => exact absurd h (by simp [parseDataUrl])
  | num n => exact absurd h (by simp [parseDataUrl])
  | bool b => exact absurd h (by simp [parseDataUrl])
  | obj fs => exact absurd h (by simp [parseDataUrl])
  | arr es => exact absurd h (by simp [parseDataUrl])

/-- A falsy `content` value never parses as a data URL. -/
theorem parseDataUrl_of_falsy {c : JSVal} (h : jsFalsy c = true) :
    parseDataUrl c = none := by
  cases c with
  | str s =>
    simp only [jsFalsy, decide_eq_true_eq] at h
    subst h
    rfl
  | undef => rfl
  | null => rfl
  | num n => rfl
  | bool b => rfl
  | obj fs => rfl
  | arr es => rfl

/-- C6: for an attachment entry whose `content` field parses as a data URI
(`data:` mime `;base64,` payload), normalization outputs the URI payload as
the content,
sets encoding to `base64`, and sets the content type to the explicitly
supplied value when one is present (truthy), falling back to the URI's
declared mime type otherwise. -/
theorem c6_data_url_attachment (i : Nat) (e f c ct : JSVal) (mt pl : String)
    (he : jsFalsy e = false) (ht : jsTypeof e = "object")
    (hf : getField e "filename" = f) (hff : jsFalsy f = false)
    (hc : getField e "content" = c)
    (hct : getField e "contentType" = ct)
    (hdu : parseDataUrl c = some (mt, pl)) :
    ∃ a, normalizeEntry i e = .ok a
      ∧ a.content = .str pl
      ∧ a.encoding = some (.str "base64")
      ∧ (jsFalsy ct = false → a.contentType = some ct)
      ∧ (jsFalsy ct = true → a.contentType = some (.str mt)) := by
  obtain ⟨hmt, hpl⟩ := parseDataUrl_ne_empty hdu
  refine ⟨{ filename := f, content := .str pl,
            encoding := keepTruthy (.str "base64"),
            contentType := keepTruthy (if jsFalsy ct then JSVal.str mt else ct),
            cid := keepTruthy (getField e "cid"),
            contentDisposition := keepTruthy (getField e "contentDisposition") },
          ?_, rfl, ?_, ?_, ?_⟩
  · unfold normalizeEntry
    rw [he, ht]
    simp only [hf, hc, hct, hdu, hff]
    simp [jsFalsy, hpl]
  · simp [keepTruthy, jsFalsy]
  · intro hctf
    rw [hctf]
    simp [keepTruthy, hctf]
  · intro hctt
    rw [hctt]
    simp [keepTruthy, jsFalsy, hmt]

/-- C6 witness: `content: "data:image/png;base64,AAAA"` with no explicit
content type normalizes to content `"AAAA"`, encoding `base64`, content
type `image/png`. -/
theorem c6_data_url_attachment_witness :
    parseDataUrl (.str "data:image/png;base64,AAAA") = some ("image/png", "AAAA")
    ∧ getField (.obj [("filename", .str "logo.png"),
          ("content", .str "data:image/png;base64,AAAA")]) "contentType" = .undef
    ∧ ∃ a, normalizeEntry 0 (.obj [("filename", .str "logo.png"),
          ("content", .str "data:image/png;base64,AAAA")]) = .ok a
        ∧ a.content = .str "AAAA"
        ∧ a.encoding = some (.str "base64")
        ∧ (jsFalsy JSVal.undef = false → a.contentType = some .undef)
        ∧ (jsFalsy JSVal.undef = true → a.contentType = some (.str "image/png")) :=
  ⟨rfl, rfl,
    c6_data_url_attachment 0
      (.obj [("filename", .str "logo.png"),
        ("content", .str "data:image/png;base64,AAAA")])
      (.str "logo.png") (.str "data:image/png;base64,AAAA") (JSVal.undef)
      ("image/png") "AAAA" rfl rfl rfl rfl rfl rfl rfl⟩

/-- C7 counterexample: an entry supplying `contentBase64` together with an
explicit `encoding: "7bit"` — the normalized encoding is the explicit
`7bit`, not `base64`: the dedicated base64 field only defaults the
encoding, it does not set it. -/
theorem c7_counterexample :
    normalizeEntry 0 (.obj [("filename", .str "f"), ("contentBase64", .str "QUJD"),
        ("encoding", .str "7bit")])
      = .ok { filename := .str "f", content := .str "QUJD",
              encoding := some (.str "7bit"), contentType := none, cid := none,
              contentDisposition := none }
    ∧ some (JSVal.str "7bit") ≠ some (JSVal.str "base64") :=
  ⟨rfl, by simp⟩

/-- C7 (amended): per-entry normalization fails with the missing-filename
error when `filename` is falsy; otherwise the content is resolved with the
fixed precedence data-URI content, then directly supplied content, then the
dedicated base64 field — in the last case the encoding defaults to
`base64` only when no explicit encoding was supplied; if no source yields
content the missing-content error is raised, and the presence of several
sources is never an error (the later sources are simply ignored). -/
theorem c7_content_precedence (i : Nat) (e f c cb enc : JSVal)
    (he : jsFalsy e = false) (ht : jsTypeof e = "object")
    (hf : getField e "filename" = f) (hc : getField e "content" = c)
    (hcb : getField e "contentBase64" = cb) (henc : getField e "encoding" = enc) :
    (jsFalsy f = true →
      normalizeEntry i e
        = .error ("attachments[" ++ toString i ++ "].filename is required"))
    ∧ (jsFalsy f = false → ∀ mt pl, parseDataUrl c = some (mt, pl) →
        ∃ a, normalizeEntry i e = .ok a ∧ a.content = .str pl)
    ∧ (jsFalsy f = false → parseDataUrl c = none → jsFalsy c = false →
        ∃ a, normalizeEntry i e = .ok a ∧ a.content = c)
    ∧ (jsFalsy f = false → jsFalsy c = true → jsFalsy cb = false →
        ∃ a, normalizeEntry i e = .ok a ∧ a.content = cb
          ∧ a.encoding = some (if jsFalsy enc then .str "base64" else enc))
    ∧ (jsFalsy f = false → jsFalsy c = true → jsFalsy cb = true →
        normalizeEntry i e
          = .error ("attachments[" ++ toString i ++ "].content or contentBase64 is required")) := by
  refine ⟨?_, ?_, ?_, ?_, ?_⟩
  · intro hft
    unfold normalizeEntry
    rw [he, ht]
    simp [hf, hft]
  · intro hff mt pl hdu
    obtain ⟨hmt, hpl⟩ := parseDataUrl_ne_empty hdu
    refine ⟨{ filename := f, content := .str pl,
              encoding := keepTruthy (.str "base64"),
              contentType := keepTruthy
                (if jsFalsy (getField e "contentType") then JSVal.str mt
                  else getField e "contentType"),
              cid := keepTruthy (getField e "cid"),
              contentDisposition := keepTruthy (getField e "contentDisposition") },
            ?_, rfl⟩
    unfold normalizeEntry
    rw [he, ht]
    simp only [hf, hc, hdu, hff]
    simp [jsFalsy, hpl]
  · intro hff hdu hcf
    refine ⟨{ filename := f, content := c,
              encoding := keepTruthy (getField e "encoding"),
              contentType := keepTruthy (getField e "contentType"),
              cid := keepTruthy (getField e "cid"),
              contentDisposition := keepTruthy (getField e "contentDisposition") },
            ?_, rfl⟩
    unfold normalizeEntry
    rw [he, ht]
    simp only [hf, hc, hcb, hdu, hff]
    simp [hcf]
  · intro hff hcf hcbf
    refine ⟨{ filename := f, content := cb,
              encoding := keepTruthy (if jsFalsy enc then .str "base64" else enc),
              contentType := keepTruthy (getField e "contentType"),
              cid := keepTruthy (getField e "cid"),
              contentDisposition := keepTruthy (getField e "contentDisposition") },
            ?_, rfl, ?_⟩
    · unfold normalizeEntry
      rw [he, ht]
      simp only [hf, hc, hcb, henc, parseDataUrl_of_falsy hcf, hff]
      simp [hcf, hcbf]
    · by_cases hencf : jsFalsy enc = true
      · rw [hencf]
        simp [keepTruthy, jsFalsy]
      · rw [Bool.not_eq_true] at hencf
        rw [hencf]
        simp [keepTruthy, hencf]
  · intro hff hcf hcbf
    unfold normalizeEntry
    rw [he, ht]
    simp only [hf, hc, hcb, parseDataUrl_of_falsy hcf, hff]
    simp [hcf, hcbf]

/-- C7 witness: an entry with only `contentBase64` and no explicit
encoding: the content comes from the base64 field, the encoding defaults to
`base64`. -/
theorem c7_content_precedence_witness :
    jsFalsy (getField (.obj [("filename", .str "f"), ("contentBase64", .str "QUJD")])
        "content") = true
    ∧ jsFalsy (getField (.obj [("filename", .str "f"), ("contentBase64", .str "QUJD")])
        "contentBase64") = false
    ∧ ∃ a, normalizeEntry 0 (.obj [("filename", .str "f"),
          ("contentBase64", .str "QUJD")]) = .ok a
        ∧ a.content = .str "QUJD"
        ∧ a.encoding = some (if jsFalsy JSVal.undef then .str "base64" else .undef) :=
  ⟨rfl, rfl,
    (c7_content_precedence 0 (.obj [("filename", .str "f"), ("contentBase64", .str "QUJD")])
        (.str "f") .undef (.str "QUJD") .undef rfl rfl rfl rfl rfl rfl).2.2.2.1
      rfl rfl rfl⟩

/-- C8: the `/send` pipeline runs its steps strictly in order — API-key
check, header normalization, attachment normalization, required-field
validation, session acquisition, composition, provider send — so whenever
an earlier step fails, the provider call is not invoked
(`providerCalled = false`), and the provider is reached exactly when every
earlier step succeeds. -/
theorem c8_pipeline_order (env : Env) (req : SendReq) (stored : Option Tokens)
    (build : MailDesc → Except String (List Nat))
    (provider : String → Except String GmailResp) :
    (req.key ≠ env.apiKey →
      handleSend env req stored build provider
        = ⟨.json 401 (errBody "Unauthorized"), false⟩)
    ∧ (∀ e, req.key = env.apiKey → normalizeHeaders req.headers = .error e →
        handleSend env req stored build provider = ⟨.json 400 (errBody e), false⟩)
    ∧ (∀ e nh, req.key = env.apiKey → normalizeHeaders req.headers = .ok nh →
        normalizeAttachments req.attachments = .error e →
        handleSend env req stored build provider = ⟨.json 400 (errBody e), false⟩)
    ∧ (∀ nh na, req.key = env.apiKey → normalizeHeaders req.headers = .ok nh →
        normalizeAttachments req.attachments = .ok na →
        missingRequired req na = true →
        handleSend env req stored build provider
          = ⟨.json 400 (errBody "Require: to, subject, and text/html or attachments"),
              false⟩)
    ∧ (∀ e nh na, req.key = env.apiKey → normalizeHeaders req.headers = .ok nh →
        normalizeAttachments req.attachments = .ok na →
        missingRequired req na = false →
        loadOAuthClientM env stored = .error e →
        handleSend env req stored build provider = ⟨.json 500 (errBody e), false⟩)
    ∧ (∀ e nh na, req.key = env.apiKey → normalizeHeaders req.headers = .ok nh →
        normalizeAttachments req.attachments = .ok na →
        missingRequired req na = false →
        loadOAuthClientM env stored = .ok () →
        build (buildMailInput env req nh na) = .error e →
        handleSend env req stored build provider = ⟨.json 500 (errBody e), false⟩)
    ∧ (∀ nh na mime, req.key = env.apiKey → normalizeHeaders req.headers = .ok nh →
        normalizeAttachments req.attachments = .ok na →
        missingRequired req na = false →
        loadOAuthClientM env stored = .ok () →
        build (buildMailInput env req nh na) = .ok mime →
        (handleSend env req stored build provider).providerCalled = true) := by
  refine ⟨?_, ?_, ?_, ?_, ?_, ?_, ?_⟩
  · intro h
    simp [handleSend, h]
  · intro e hkey hh
    simp [handleSend, hkey, hh]
  · intro e nh hkey hh ha
    simp [handleSend, hkey, hh, ha]
  · intro nh na hkey hh ha hmr
    simp [handleSend, hkey, hh, ha, hmr]
  · intro e nh na hkey hh ha hmr hload
    simp [handleSend, hkey, hh, ha, hmr, hload]
  · intro e nh na hkey hh ha hmr hload hbuild
    simp [handleSend, hkey, hh, ha, hmr, hload, hbuild]
  · intro nh na mime hkey hh ha hmr hload hbuild
    simp only [handleSend, hkey, hh, ha, hmr, hload, hbuild]
    simp only [ne_eq, not_true_eq_false, if_false, Bool.false_eq_true]
    cases provider (base64UrlEncode mime) <;> simp [hh, ha, hmr, hload, hbuild]

/-- C8 witness: a wrong API key is rejected with 401 and the provider is
not called, for a request that would otherwise be valid. -/
theorem c8_pipeline_order_witness :
    (some "wrong" : Option String)
        ≠ Env.apiKey ⟨some "k", some "f", some "a", some "b", some "c"⟩
    ∧ handleSend ⟨some "k", some "f", some "a", some "b", some "c"⟩
        { key := some "wrong", toAddr := .str "you@example.com",
          subject := .str "Hi", text := .str "Hello" }
        none (fun _ => .ok [72, 105]) (fun _ => .ok ⟨.str "id1", .str "t1"⟩)
        = ⟨.json 401 (errBody "Unauthorized"), false⟩ :=
  ⟨by decide,
    (c8_pipeline_order ⟨some "k", some "f", some "a", some "b", some "c"⟩
        { key := some "wrong", toAddr := .str "you@example.com",
          subject := .str "Hi", text := .str "Hello" }
        none (fun _ => .ok [72, 105]) (fun _ => .ok ⟨.str "id1", .str "t1"⟩)).1
      (by decide)⟩

end GmailApi
